import Mathlib

/-!
Verification of the health-monitor dashboard (`pro9.py`).

The program has three parts:
* `HealthEngine.analyze` — a pure risk scorer over (heart rate, systolic
  blood pressure, SpO2);
* `simulate_sensors` — a background loop that rewrites the shared vitals
  dictionary once per tick, with an induced drift after tick 20;
* the `/data` endpoint, which merges the vitals dictionary with a fresh
  risk assessment into one flat JSON object.

Python floats are embedded as rationals (`ℚ`), the integer score as `ℤ`,
the status labels as the exact strings the code produces.  Random noise
samples (`np.random.normal`) enter the model as explicit parameters of
each tick.
-/

namespace Pro9

/-- The result dictionary of `HealthEngine.analyze`:
`{"score": ..., "status": ...}` (pro9.py line 30). -/
structure RiskAssessment where
  score : ℤ
  status : String
deriving Repr, DecidableEq

/-- Body of `HealthEngine.analyze` (pro9.py lines 15–30), embedded
statement by statement: `score = 0`; `if hr > 100: score += 20`;
`if spo2 < 95: score += 40`; `if hr > 90 and spo2 < 96: score += 30`;
then the status ladder on the un-clamped score, and the return value
clamps the score with `min(score, 100)`. -/
def analyze (hr bp_sys spo2 : ℚ) : RiskAssessment :=
  let score : ℤ := 0
  let score := if hr > 100 then score + 20 else score
  let score := if spo2 < 95 then score + 40 else score
  let score := if hr > 90 ∧ spo2 < 96 then score + 30 else score
  let status := if score > 70 then "CRITICAL"
    else if score > 40 then "MODERATE RISK" else "Normal"
  { score := min score 100, status := status }

/-- The un-clamped score accumulated by lines 18–24 of pro9.py, written
as the sum of the three independent penalties. -/
def preScore (hr spo2 : ℚ) : ℤ :=
  (if hr > 100 then (20 : ℤ) else 0)
    + (if spo2 < 95 then 40 else 0)
    + (if hr > 90 ∧ spo2 < 96 then 30 else 0)

/-- The status ladder of lines 26–28 of pro9.py as a function of the
un-clamped score. -/
def statusOf (score : ℤ) : String :=
  if score > 70 then "CRITICAL"
  else if score > 40 then "MODERATE RISK" else "Normal"

/-- Numeric rank of a status label in the ordering
Normal < ModerateRisk < Critical. -/
def statusRank (s : String) : ℕ :=
  if s = "CRITICAL" then 2 else if s = "MODERATE RISK" then 1 else 0

/-- The engine object: its only state is the `history` list created in
`__init__` (pro9.py line 13). -/
structure HealthEngine where
  history : List (ℚ × ℚ × ℚ)
deriving Repr, DecidableEq

/-- The `analyze` method as a state transformer on the engine: the body
(pro9.py lines 15–30) never reads or assigns any attribute of `self`,
so the post-state is the pre-state and the result is the pure value. -/
def HealthEngine.analyze (e : HealthEngine) (hr bp_sys spo2 : ℚ) :
    RiskAssessment × HealthEngine :=
  (Pro9.analyze hr bp_sys spo2, e)

/-- The shared vitals dictionary `virtual_vitals` (pro9.py line 38). -/
structure Vitals where
  hr : ℚ
  bp : ℚ
  spo2 : ℚ
deriving Repr, DecidableEq

/-- `virtual_vitals = {"hr": 72, "bp": 120, "spo2": 98}` (line 38). -/
def initialVitals : Vitals := { hr := 72, bp := 120, spo2 := 98 }

/-- One iteration of the `while True` body of `simulate_sensors`
(pro9.py lines 44–54) at counter value `t` (the value after `t += 1`),
with the two `np.random.normal` samples as parameters `noiseHr`,
`noiseSpo2`: `hr` and `spo2` are overwritten with baseline plus noise,
then, when `t > 20`, `hr += (t - 20) * 2` and `spo2 -= (t - 20) * 0.5`;
the `"bp"` key is never written. -/
def simulateTick (t : ℕ) (noiseHr noiseSpo2 : ℚ) (v : Vitals) : Vitals :=
  if 20 < t then
    { hr := (72 + noiseHr) + ((t : ℚ) - 20) * 2
      bp := v.bp
      spo2 := (98 + noiseSpo2) - ((t : ℚ) - 20) * (1 / 2) }
  else
    { hr := 72 + noiseHr, bp := v.bp, spo2 := 98 + noiseSpo2 }

/-- The simulator state after `n` iterations of the loop, starting from
`virtual_vitals`'s initial value, with `noise k` giving the pair of
noise samples drawn at tick `k`. -/
def simulateRun (noise : ℕ → ℚ × ℚ) : ℕ → Vitals
  | 0 => initialVitals
  | n + 1 =>
      simulateTick (n + 1) (noise (n + 1)).1 (noise (n + 1)).2
        (simulateRun noise n)

/-- JSON-serialisable values appearing in the `/data` response. -/
inductive JVal where
  | num (q : ℚ)
  | int (n : ℤ)
  | str (s : String)
deriving Repr, DecidableEq

/-- The `virtual_vitals` dictionary as an ordered key/value list. -/
def vitalsDict (v : Vitals) : List (String × JVal) :=
  [("hr", JVal.num v.hr), ("bp", JVal.num v.bp), ("spo2", JVal.num v.spo2)]

/-- The analysis result dictionary as an ordered key/value list. -/
def analysisDict (r : RiskAssessment) : List (String × JVal) :=
  [("score", JVal.int r.score), ("status", JVal.str r.status)]

/-- Insertion into a Python dict: an existing key is overwritten in
place, a new key is appended. -/
def dictInsert (d : List (String × JVal)) (k : String) (x : JVal) :
    List (String × JVal) :=
  if d.any (fun p => p.1 = k) then
    d.map (fun p => if p.1 = k then (k, x) else p)
  else d ++ [(k, x)]

/-- Python's `{**a, **b}` dict merge: start from `a`, insert each entry
of `b` in order. -/
def dictMerge (a b : List (String × JVal)) : List (String × JVal) :=
  b.foldl (fun d p => dictInsert d p.1 p.2) a

/-- The `/data` handler `get_data` (pro9.py lines 62–66): read the
current vitals, run `engine.analyze` on its three fields, and return
the flat merge `{**vitals, **analysis}`. -/
def get_data (e : HealthEngine) (v : Vitals) : List (String × JVal) :=
  dictMerge (vitalsDict v)
    (analysisDict (HealthEngine.analyze e v.hr v.bp v.spo2).1)

/-! ### Basic characterisation lemmas -/

/-- The sequential score accumulation of `analyze` equals the sum of the
three penalties, and the returned record is the clamp and ladder applied
to it. -/
theorem analyze_eq (hr bp_sys spo2 : ℚ) :
    analyze hr bp_sys spo2 =
      { score := min (preScore hr spo2) 100
        status := statusOf (preScore hr spo2) } := by
  by_cases h1 : hr > 100 <;> by_cases h2 : spo2 < 95 <;>
    by_cases h3 : hr > 90 ∧ spo2 < 96 <;>
    simp [analyze, preScore, statusOf, h1, h2, h3]

theorem preScore_nonneg (hr spo2 : ℚ) : 0 ≤ preScore hr spo2 := by
  unfold preScore
  split_ifs <;> norm_num

theorem preScore_le_90 (hr spo2 : ℚ) : preScore hr spo2 ≤ 90 := by
  unfold preScore
  split_ifs <;> norm_num

theorem min_preScore_100 (hr spo2 : ℚ) :
    min (preScore hr spo2) 100 = preScore hr spo2 :=
  min_eq_left (le_trans (preScore_le_90 hr spo2) (by norm_num))

theorem simulateTick_bp (t : ℕ) (e1 e2 : ℚ) (v : Vitals) :
    (simulateTick t e1 e2 v).bp = v.bp := by
  unfold simulateTick
  split_ifs <;> rfl

theorem rat_le_ceil_toNat (x : ℚ) : x ≤ (⌈x⌉.toNat : ℚ) :=
  le_trans (Int.le_ceil x) (by exact_mod_cast Int.self_le_toNat ⌈x⌉)

/-! ### Claims -/

/-- C1: for every real-valued input, `analyze` computes exactly the
additive score — +20 if heartRate > 100, +40 if spo2 < 95, +30 if
heartRate > 90 and spo2 < 96, all three cumulable — and returns it
clamped to at most 100. -/
theorem c1_score_formula (hr bp_sys spo2 : ℚ) :
    (analyze hr bp_sys spo2).score =
      min ((if hr > 100 then (20 : ℤ) else 0)
        + (if spo2 < 95 then 40 else 0)
        + (if hr > 90 ∧ spo2 < 96 then 30 else 0)) 100 := by
  rw [analyze_eq]
  rfl

/-- C2, counterexample: at heartRate = 101, spo2 = 94 (bp 120) the code
returns score 90, not 60, because the subtle-correlation rule also
fires; the status is CRITICAL, not MODERATE RISK. -/
theorem c2_counterexample :
    ¬ ((analyze 101 120 94).score = 60 ∧
        (analyze 101 120 94).status = "MODERATE RISK") := by
  decide

/-- C2, amended: for heartRate = 101, spo2 = 94 and any blood pressure,
`analyze` returns score 90 (20 + 40 + 30, since hr > 100 and spo2 < 95
jointly imply the subtle condition hr > 90 and spo2 < 96) and status
CRITICAL. -/
theorem c2_amended (bp_sys : ℚ) :
    analyze 101 bp_sys 94 = { score := 90, status := "CRITICAL" } := by
  rw [analyze_eq]
  norm_num [preScore, statusOf]

/-- C3, counterexample: at heartRate = 95, spo2 = 95 (bp 120) the code
returns score 30, not 70: the condition spo2 < 95 is false at exactly
95, so only the subtle-correlation penalty fires; status is Normal. -/
theorem c3_counterexample :
    ¬ ((analyze 95 120 95).score = 70 ∧
        (analyze 95 120 95).status = "MODERATE RISK") := by
  decide

/-- C3, amended: for heartRate = 95, spo2 = 95 and any blood pressure,
`analyze` returns score 30 — only the subtle-correlation rule fires
(95 > 90 and 95 < 96), while spo2 < 95 is false at exactly 95 — and
status Normal (30 > 40 is false). -/
theorem c3_amended (bp_sys : ℚ) :
    analyze 95 bp_sys 95 = { score := 30, status := "Normal" } := by
  rw [analyze_eq]
  norm_num [preScore, statusOf]

/-- C4: the returned score is always in [0, 100]; the pre-clamp sum
never exceeds 90, so `min(score, 100)` always equals the pre-clamp
score and the clamp is unreachable. -/
theorem c4_score_bounds (hr bp_sys spo2 : ℚ) :
    0 ≤ (analyze hr bp_sys spo2).score ∧
      (analyze hr bp_sys spo2).score ≤ 100 ∧
      preScore hr spo2 ≤ 90 ∧
      min (preScore hr spo2) 100 = preScore hr spo2 ∧
      (analyze hr bp_sys spo2).score = preScore hr spo2 := by
  have h0 := preScore_nonneg hr spo2
  have h90 := preScore_le_90 hr spo2
  have hmin := min_preScore_100 hr spo2
  rw [analyze_eq]
  exact ⟨by simp [hmin]; omega, by simp [hmin]; omega, h90, hmin, by simp [hmin]⟩

/-- C5: the status is a deterministic function of the returned score
alone (via the ladder `statusOf`: CRITICAL if > 70, else MODERATE RISK
if > 40, else Normal), monotone in the order
Normal < MODERATE RISK < CRITICAL; in particular a smaller or equal
score never yields a strictly higher status. -/
theorem c5_status_of_score :
    (∀ hr bp_sys spo2 : ℚ,
      (analyze hr bp_sys spo2).status =
        statusOf ((analyze hr bp_sys spo2).score)) ∧
    (∀ s1 s2 : ℤ, s1 ≤ s2 →
      statusRank (statusOf s1) ≤ statusRank (statusOf s2)) ∧
    statusRank "Normal" < statusRank "MODERATE RISK" ∧
    statusRank "MODERATE RISK" < statusRank "CRITICAL" ∧
    (∀ hr bp_sys spo2 hr' bp' spo2' : ℚ,
      (analyze hr bp_sys spo2).score ≤ (analyze hr' bp' spo2').score →
      statusRank ((analyze hr bp_sys spo2).status) ≤
        statusRank ((analyze hr' bp' spo2').status)) := by
  have hdet : ∀ hr bp_sys spo2 : ℚ,
      (analyze hr bp_sys spo2).status =
        statusOf ((analyze hr bp_sys spo2).score) := by
    intro hr bp spo2
    rw [analyze_eq]
    simp [min_preScore_100]
  have hmono : ∀ s1 s2 : ℤ, s1 ≤ s2 →
      statusRank (statusOf s1) ≤ statusRank (statusOf s2) := by
    intro s1 s2 h
    unfold statusOf
    split_ifs <;> first | omega | decide
  refine ⟨hdet, hmono, by decide, by decide, ?_⟩
  intro hr bp spo2 hr' bp' spo2' hle
  rw [hdet, hdet]
  exact hmono _ _ hle

/-- Witness for C5 at concrete inputs: score 30 versus score 80 on the
ladder, and the all-Normal vitals versus a critical reading. -/
theorem c5_status_of_score_witness :
    statusRank (statusOf 30) ≤ statusRank (statusOf 80) ∧
      statusRank ((analyze 72 120 98).status) ≤
        statusRank ((analyze 105 120 90).status) :=
  ⟨c5_status_of_score.2.1 30 80 (by decide),
    c5_status_of_score.2.2.2.2 72 120 98 105 120 90 (by decide)⟩

/-- C6: on every tick with counter `t`, heartRate is set to 72 plus its
noise sample and oxygenSaturation to 98 plus its noise sample, plus a
drift of (t − 20) × 2 on heartRate and −(t − 20) × 0.5 on
oxygenSaturation exactly when t > 20, with no floor or ceiling; for
fixed noise samples the drift exceeds every bound as t grows. -/
theorem c6_tick_drift :
    (∀ (t : ℕ) (e1 e2 : ℚ) (v : Vitals),
      (simulateTick t e1 e2 v).hr =
        72 + e1 + (if 20 < t then ((t : ℚ) - 20) * 2 else 0) ∧
      (simulateTick t e1 e2 v).spo2 =
        98 + e2 - (if 20 < t then ((t : ℚ) - 20) * (1 / 2) else 0)) ∧
    (∀ e1 e2 M : ℚ, ∃ t : ℕ, ∀ v : Vitals,
      M < (simulateTick t e1 e2 v).hr ∧
        (simulateTick t e1 e2 v).spo2 < -M) := by
  constructor
  · intro t e1 e2 v
    unfold simulateTick
    split_ifs with h <;> constructor <;> simp
  · intro e1 e2 M
    refine ⟨21 + (⌈M - 72 - e1⌉.toNat ⊔ ⌈2 * (98 + e2 + M)⌉.toNat), ?_⟩
    intro v
    set n : ℕ := ⌈M - 72 - e1⌉.toNat ⊔ ⌈2 * (98 + e2 + M)⌉.toNat with hn
    have ha : (M - 72 - e1 : ℚ) ≤ (n : ℚ) :=
      le_trans (rat_le_ceil_toNat _)
        (by exact_mod_cast Nat.le_max_left ⌈M - 72 - e1⌉.toNat ⌈2 * (98 + e2 + M)⌉.toNat)
    have hb : (2 * (98 + e2 + M) : ℚ) ≤ (n : ℚ) :=
      le_trans (rat_le_ceil_toNat _)
        (by exact_mod_cast Nat.le_max_right ⌈M - 72 - e1⌉.toNat ⌈2 * (98 + e2 + M)⌉.toNat)
    have hnn : (0 : ℚ) ≤ (n : ℚ) := Nat.cast_nonneg n
    have h20 : 20 < 21 + n := by omega
    unfold simulateTick
    rw [if_pos h20]
    constructor
    · show M < 72 + e1 + (((21 + n : ℕ) : ℚ) - 20) * 2
      push_cast
      linarith
    · show 98 + e2 - (((21 + n : ℕ) : ℚ) - 20) * (1 / 2) < -M
      push_cast
      linarith

/-- C7: the bloodPressureSystolic field is never written by the
simulator: a single tick preserves it, and after any number of ticks it
still equals its initial value 120. -/
theorem c7_bp_never_modified :
    (∀ (t : ℕ) (e1 e2 : ℚ) (v : Vitals),
      (simulateTick t e1 e2 v).bp = v.bp) ∧
    (∀ (noise : ℕ → ℚ × ℚ) (n : ℕ), (simulateRun noise n).bp = 120) := by
  refine ⟨simulateTick_bp, ?_⟩
  intro noise n
  induction n with
  | zero => rfl
  | succ k ih => rw [simulateRun, simulateTick_bp, ih]

/-- C8: the analyze method is total and effect-free: for every input it
returns a defined assessment (status one of the three labels, score in
[0, 100]), the engine state — including its history list — is returned
unchanged, and the result does not depend on the engine state. -/
theorem c8_analyze_total_pure (e e' : HealthEngine) (hr bp_sys spo2 : ℚ) :
    (HealthEngine.analyze e hr bp_sys spo2).2 = e ∧
    (HealthEngine.analyze e hr bp_sys spo2).1 =
      (HealthEngine.analyze e' hr bp_sys spo2).1 ∧
    ((HealthEngine.analyze e hr bp_sys spo2).1.status = "Normal" ∨
      (HealthEngine.analyze e hr bp_sys spo2).1.status = "MODERATE RISK" ∨
      (HealthEngine.analyze e hr bp_sys spo2).1.status = "CRITICAL") ∧
    0 ≤ (HealthEngine.analyze e hr bp_sys spo2).1.score ∧
    (HealthEngine.analyze e hr bp_sys spo2).1.score ≤ 100 := by
  refine ⟨rfl, rfl, ?_, ?_, ?_⟩
  · have hs : (analyze hr bp_sys spo2).status = "Normal" ∨
        (analyze hr bp_sys spo2).status = "MODERATE RISK" ∨
        (analyze hr bp_sys spo2).status = "CRITICAL" := by
      rw [analyze_eq]
      unfold statusOf
      split_ifs <;> simp
    exact hs
  · show 0 ≤ (analyze hr bp_sys spo2).score
    rw [analyze_eq]
    have := preScore_nonneg hr spo2
    simp [min_preScore_100]
    omega
  · show (analyze hr bp_sys spo2).score ≤ 100
    rw [analyze_eq]
    have := preScore_le_90 hr spo2
    simp [min_preScore_100]
    omega

/-- C9: the `/data` handler returns one flat object whose entries are
exactly the three vitals fields followed by the score and status of the
assessment computed from that same snapshot — no nesting, no other
fields. -/
theorem c9_get_data_flat_merge (e : HealthEngine) (v : Vitals) :
    get_data e v =
      [("hr", JVal.num v.hr), ("bp", JVal.num v.bp),
        ("spo2", JVal.num v.spo2),
        ("score", JVal.int (analyze v.hr v.bp v.spo2).score),
        ("status", JVal.str (analyze v.hr v.bp v.spo2).status)] := by
  rfl

/-- C10: the returned score always lies in {0, 20, 30, 40, 50, 70, 90};
in particular 60 (the 20 and 40 penalties without the subtle 30) is
never returned, since hr > 100 and spo2 < 95 jointly imply the subtle
condition hr > 90 and spo2 < 96. -/
theorem c10_score_values (hr bp_sys spo2 : ℚ) :
    ((analyze hr bp_sys spo2).score = 0 ∨
      (analyze hr bp_sys spo2).score = 20 ∨
      (analyze hr bp_sys spo2).score = 30 ∨
      (analyze hr bp_sys spo2).score = 40 ∨
      (analyze hr bp_sys spo2).score = 50 ∨
      (analyze hr bp_sys spo2).score = 70 ∨
      (analyze hr bp_sys spo2).score = 90) ∧
    (analyze hr bp_sys spo2).score ≠ 60 := by
  rw [analyze_eq]
  by_cases h1 : hr > 100 <;> by_cases h2 : spo2 < 95 <;>
    by_cases h3 : hr > 90 ∧ spo2 < 96
  all_goals
    first
    | exact absurd (⟨by linarith, by linarith⟩ : hr > 90 ∧ spo2 < 96) h3
    | simp [preScore, h1, h2, h3]

end Pro9
